import Mathlib

/-!
Verification of the CodeBox sandboxed code-execution service.

This file gives a shallow embedding, in Lean 4, of the parts of the
repository that the checked claims are about:

* `app/services/docker_service.py` — hardened `docker run` command assembly,
  subprocess execution with timeout, output truncation;
* `app/services/lang_service.py` — language registry and the `IN_i` /
  `OUT_NAME.EXT` placeholder rewriter;
* `app/services/file_task_service.py` — request validation and the
  code-with-files task creation flow;
* `app/tasks.py` — the two Celery coordinator tasks and output collection;
* `app/api/serializers` — the language choice restriction.

Modelling conventions: Python strings are `String` / `List Char` (character
semantics agree on code points; regex character classes are modelled at
their ASCII fragment, which covers every literal the patterns use);
Python exceptions are `Except`; the nondeterministic outside world (the
subprocess outcome, the output-directory state, the per-job UUID, the
configured storage roots) is passed in explicitly as parameters.  The
storage root settings are assumed to be already-normalized absolute paths
without a trailing slash, so `str(Path(root) / a / b)` is plain
concatenation with `/`.
-/

namespace CodeBox

/-! ## docker_service.py -/

/-- `IMAGE_NAME = "code_runner:latest"` from `docker_service.py`. -/
def IMAGE_NAME : String := "code_runner:latest"

/-- The fixed truncation marker appended by `_truncate`
(`"\n...[truncated]..."`). -/
def TRUNC_MARKER : List Char := "\n...[truncated]...".data

/-- `_truncate` on the underlying character list:
`if len(s) > limit: return s[:limit] + "\n...[truncated]..." ; return s`
with the default `limit = 64_000`. -/
def truncList (l : List Char) : List Char :=
  if 64000 < l.length then l.take 64000 ++ TRUNC_MARKER else l

/-- `_truncate(s, limit=64_000)` from `docker_service.py` (the `s is None`
guard is dropped: the call sites already coalesce `None` to `""`). -/
def _truncate (s : String) : String :=
  ⟨truncList s.data⟩

/-- The uniform result dict built by `run_docker_command` and
`_normalize_result`: `{stdout, stderr, returncode, error}`.  `none` models
an absent / `None` value. -/
structure RunResult where
  stdout : String
  stderr : String
  returncode : Option Int
  error : Option String
  deriving DecidableEq, Repr

/-- The possible outcomes of the `subprocess.run(cmd, ...)` call inside
`run_docker_command`, i.e. which branch of the `try/except` runs.  For
`TimeoutExpired` and `CalledProcessError` the exception object carries the
output buffered so far (`e.stdout` / `e.stderr`, which may be `None`). -/
inductive SubprocOutcome where
  | completed (stdout stderr : String) (returncode : Int)
  | timeoutExpired (stdout stderr : Option String)
  | calledProcessError (stdout stderr : Option String) (returncode : Int)
  | unexpectedExc
  deriving Repr

/-- Error string of the `subprocess.TimeoutExpired` branch; this literal is
the code-level representation of the spec error kind `TimeoutExceeded`. -/
def TIMEOUT_ERROR : String := "Execution time exceeded"

/-- `run_docker_command(cmd, timeout)` from `docker_service.py`, as a
function of the subprocess outcome.  Mirrors the four `try/except`
branches: normal completion truncates both streams and reports the exit
code; `TimeoutExpired` returns empty streams, `returncode=None` and the
timeout error; `CalledProcessError` truncates the buffered streams
(coalescing `None` to `""`) and keeps the exit code; any other exception
returns empty streams and `"Unexpected error occurred"`. -/
def run_docker_command : SubprocOutcome → RunResult
  | .completed out err rc =>
      { stdout := _truncate out, stderr := _truncate err,
        returncode := some rc, error := none }
  | .timeoutExpired _ _ =>
      { stdout := "", stderr := "", returncode := none,
        error := some TIMEOUT_ERROR }
  | .calledProcessError out err rc =>
      { stdout := _truncate (out.getD ""), stderr := _truncate (err.getD ""),
        returncode := some rc, error := some "Subprocess error" }
  | .unexpectedExc =>
      { stdout := "", stderr := "", returncode := none,
        error := some "Unexpected error occurred" }

/-- The eleven hardening options that `get_docker_run_command_ro` emits
before the image name, for a given job directory. -/
def dockerHardenedOptions (job_dir : String) : List String :=
  ["docker", "run", "--rm",
   "--cpus", "1.0",
   "--memory", "512m",
   "--memory-swap", "512m",
   "--pids-limit", "100",
   "--cap-drop", "ALL",
   "--security-opt", "no-new-privileges",
   "--network", "none",
   "--read-only",
   "--mount", "type=bind,src=" ++ job_dir ++ ",dst=/sandbox,ro,bind-propagation=rprivate",
   "--tmpfs", "/tmp:rw,noexec,nosuid,nodev,size=64m",
   "--workdir", "/sandbox",
   "--user", "1000:1000"]

/-- `get_docker_run_command_ro(job_dir=…, lang_cmd=…)` from
`docker_service.py`: the hardened option vector, then the image name, then
the in-container command. -/
def get_docker_run_command_ro (job_dir : String) (lang_cmd : List String) : List String :=
  dockerHardenedOptions job_dir ++ [IMAGE_NAME] ++ lang_cmd

/-! ## lang_service.py — language registry -/

/-- `VENV_PATH` from `lang_service.py`. -/
def VENV_PATH : String := "/app/.venv/bin/python"

/-- The `Language` enum. -/
inductive Language where
  | python | javascript | php | c | cpp
  deriving DecidableEq, Repr

/-- ASCII fragment of the Python whitespace set stripped by `str.strip()`. -/
def isPySpace (c : Char) : Bool :=
  c = ' ' || c = '\t' || c = '\n' || c = '\x0d' || c = '\x0b' || c = '\x0c'

/-- `str.strip()` (ASCII whitespace). -/
def pyStrip (l : List Char) : List Char :=
  ((l.dropWhile isPySpace).reverse.dropWhile isPySpace).reverse

/-- `str.lower()` (ASCII). -/
def pyLower (l : List Char) : List Char :=
  l.map Char.toLower

/-- `_ALIASES.get(key, key)` from `lang_service.py`. -/
def aliasLookup (k : String) : String :=
  if k = "py" then "python"
  else if k = "python3" then "python"
  else if k = "js" then "javascript"
  else if k = "node" then "javascript"
  else if k = "nodejs" then "javascript"
  else if k = "c++" then "cpp"
  else if k = "g++" then "cpp"
  else if k = "cpp" then "cpp"
  else if k = "gcc" then "c"
  else k

/-- `Language(key)`: succeeds exactly on the five canonical value strings. -/
def languageOfValue (k : String) : Option Language :=
  if k = "python" then some .python
  else if k = "javascript" then some .javascript
  else if k = "php" then some .php
  else if k = "c" then some .c
  else if k = "cpp" then some .cpp
  else none

/-- `normalize_language(s)` from `lang_service.py`:
`key = (s or "").strip().lower(); key = _ALIASES.get(key, key);
return Language(key)`, raising `ValueError` on failure. -/
def normalize_language (s : String) : Except String Language :=
  let key := aliasLookup ⟨pyLower (pyStrip s.data)⟩
  match languageOfValue key with
  | some l => .ok l
  | none => .error ("Unsupported language: " ++ s)

/-- `extract_extension(lang)` from `lang_service.py`. -/
def extract_extension : Language → String
  | .python => "py"
  | .javascript => "js"
  | .php => "php"
  | .c => "c"
  | .cpp => "cpp"

/-- `build_lang_command(lang, source_path)` from `lang_service.py`. -/
def build_lang_command (lang : Language) (source_path : String) : List String :=
  match lang with
  | .python => [VENV_PATH, source_path]
  | .javascript => ["node", source_path]
  | .php => ["php", source_path]
  | .c => ["sh", "-lc",
      "gcc " ++ source_path ++ " -O2 -std=c11 -o /tmp/main && /tmp/main"]
  | .cpp => ["sh", "-lc",
      "g++ " ++ source_path ++ " -O2 -std=c++17 -o /tmp/main && /tmp/main"]

/-- `LANG_CHOICES` from both request serializers
(`app/api/serializers/task.py` and `code_with_files_task.py`): the choice
set the `ChoiceField` accepts, by exact string membership. -/
def LANG_CHOICES : List String := ["python", "javascript", "c", "php"]

/-! ## lang_service.py — placeholder rewriter

`process_source_code` applies two `re.sub` passes to the source text:
first `\bIN_(\d+)\b`, then (over the already-rewritten text)
`OUT_(?:\{)?([A-Za-z0-9_\-]+)(?:\})?\.([A-Za-z0-9]+)`.  The scanners below
reproduce the semantics of `re.sub` for these two patterns: positions are
tried left to right, matches are non-overlapping, the replacement callback
runs as each match is found, and an exception raised by the callback
aborts the whole substitution.  For both patterns the backtracking search
of the Python engine degenerates to a deterministic greedy match (each
quantified class is disjoint from the character that must follow it), so
the matchers take maximal runs.  Character classes are modelled at their
ASCII fragment. -/

/-- Split a character list on `/`, keeping empty segments (the semantics
of `str.split("/")` on a non-empty string). -/
def splitSlashAux : List Char → List Char → List (List Char)
  | [], acc => [acc.reverse]
  | '/' :: rest, acc => acc.reverse :: splitSlashAux rest []
  | c :: rest, acc => splitSlashAux rest (c :: acc)

/-- `Path(s).name` for POSIX pure paths: parse components by splitting
on `/`, discarding empty and `.` components, and take the last one. -/
def pathName (s : String) : String :=
  ⟨((((splitSlashAux s.data []).filter
      (fun c => c ≠ ([] : List Char) && c ≠ ['.'])).getLast?).getD [])⟩

/-- Python regex `\w` (ASCII fragment): letters, digits, underscore. -/
def isWordChar (c : Char) : Bool := c.isAlphanum || c = '_'

/-- The class `[A-Za-z0-9_\-]` of the `OUT_` name group. -/
def isNameChar (c : Char) : Bool := c.isAlphanum || c = '_' || c = '-'

/-- `int(...)` on a digit string. -/
def natOfDigits (ds : List Char) : Nat :=
  ds.foldl (fun a c => a * 10 + (c.toNat - 48)) 0

/-- Match `\bIN_(\d+)\b` at the head of `s`; `prevW` says whether the
character just before `s` in the scanned text is a word character (the
leading `\b`).  Returns `(index value, matched length)`.  The digit run is
maximal, and the trailing `\b` requires the next character (if any) to be
a non-word character; shorter digit runs cannot help, since the character
after them would be a digit. -/
def matchINAt (prevW : Bool) (s : List Char) : Option (Nat × Nat) :=
  match s with
  | 'I' :: 'N' :: '_' :: rest =>
    if prevW then none
    else
      let ds := rest.takeWhile Char.isDigit
      if ds.isEmpty then none
      else
        match rest.dropWhile Char.isDigit with
        | [] => some (natOfDigits ds, 3 + ds.length)
        | c :: _ => if isWordChar c then none else some (natOfDigits ds, 3 + ds.length)
  | _ => none

/-- Length of the optional `{` right after `OUT_`: consumed exactly when
present. -/
def outBrace1 (rest : List Char) : Nat := if rest.head? = some '{' then 1 else 0

/-- The (maximal) name group of an `OUT` match attempt. -/
def outName (rest : List Char) : List Char :=
  (rest.drop (outBrace1 rest)).takeWhile isNameChar

/-- What remains after the name group. -/
def outAfterName (rest : List Char) : List Char :=
  (rest.drop (outBrace1 rest)).dropWhile isNameChar

/-- Length of the optional `}` after the name group. -/
def outBrace2 (rest : List Char) : Nat :=
  if (outAfterName rest).head? = some '}' then 1 else 0

/-- The `OUT` match attempt after the literal `OUT_` has been consumed:
optional `{`, non-empty name run, optional `}`, a literal `.`, and a
non-empty extension run. -/
def matchOUTAfter (rest : List Char) : Option (List Char × List Char × Nat) :=
  if (outName rest).isEmpty then none
  else
    match (outAfterName rest).drop (outBrace2 rest) with
    | '.' :: rest4 =>
      if (rest4.takeWhile Char.isAlphanum).isEmpty then none
      else some (outName rest, rest4.takeWhile Char.isAlphanum,
        4 + outBrace1 rest + (outName rest).length + outBrace2 rest + 1 +
          (rest4.takeWhile Char.isAlphanum).length)
    | _ => none

/-- Match `OUT_(?:\{)?([A-Za-z0-9_\-]+)(?:\})?\.([A-Za-z0-9]+)` at the
head of `s`.  Returns `(name group, ext group, matched length)`.  Each
optional brace is consumed exactly when present (the alternative branch of
the backtracking search always fails, because a name character is neither
`{`, `}` nor `.`), and the name and extension runs are maximal. -/
def matchOUTAt (s : List Char) : Option (List Char × List Char × Nat) :=
  match s with
  | 'O' :: 'U' :: 'T' :: '_' :: rest => matchOUTAfter rest
  | _ => none

/-- Exceptions that can escape a replacement callback of
`process_source_code`. -/
inductive SubErr where
  /-- `ValueError`: `IN_i` with `i < 1` (indices start at 1). -/
  | indexTooLow
  /-- `ValueError`: `IN_i` beyond the number of provided input files. -/
  | indexOutOfRange
  /-- `SuspiciousFileOperation` from `django.utils.text.get_valid_filename`. -/
  | suspiciousFileOp
  deriving DecidableEq, Repr

/-- `_to_string(s)` from `lang_service.py`: wrap in double quotes. -/
def _to_string (s : String) : String := "\"" ++ s ++ "\""

/-- `_replace_in` from `process_source_code`: `IN_i` (1-based) becomes the
quoted `<in_dir>/<basename(input_files[i-1])>`; out-of-range indices raise
`ValueError`. -/
def _replace_in (in_dir : String) (input_files : List String) (i : Nat) :
    Except SubErr (List Char) :=
  if i < 1 then .error .indexTooLow
  else if input_files.length < i then .error .indexOutOfRange
  else .ok (_to_string (in_dir ++ "/" ++ pathName (input_files.getD (i - 1) ""))).data

/-- The class `[-\w.]` kept by `get_valid_filename`. -/
def isValidFilenameChar (c : Char) : Bool := isWordChar c || c = '-' || c = '.'

/-- `django.utils.text.get_valid_filename`: strip, replace spaces with
underscores, drop characters outside `[-\w.]`, and reject `""`, `"."`,
`".."`. -/
def get_valid_filename (l : List Char) : Except SubErr (List Char) :=
  let s1 := pyStrip l
  let s2 := s1.map (fun c => if c = ' ' then '_' else c)
  let s3 := s2.filter isValidFilenameChar
  if s3 = [] ∨ s3 = ['.'] ∨ s3 = ['.', '.'] then .error .suspiciousFileOp
  else .ok s3

/-- `_replace_out` from `process_source_code`: `OUT_NAME.EXT` becomes the
quoted `<out_dir>/<get_valid_filename(NAME).lower()>.<EXT.lower()>`. -/
def _replace_out (out_dir : String) (name ext : List Char) :
    Except SubErr (List Char) :=
  match get_valid_filename name with
  | .error e => .error e
  | .ok n =>
    .ok (_to_string (out_dir ++ "/" ++ (⟨pyLower n⟩ : String) ++ "." ++
      (⟨pyLower ext⟩ : String))).data

/-- Spec-side sanitization (§4.2): strips characters outside
`[A-Za-z0-9._-]`.  Second definition for the refinement comparison with
`_replace_out`. -/
def specSanitize (l : List Char) : List Char :=
  l.filter (fun c => c.isAlphanum || c = '.' || c = '_' || c = '-')

/-- Spec-side `OUT` substitution (§4.2): `OUT_NAME.EXT` → the quoted
`<out_dir>/<sanitize(NAME).lower()>.<EXT.lower()>`, with `specSanitize`
as the sanitizer.  Second definition for the refinement comparison. -/
def specReplaceOut (out_dir : String) (name ext : List Char) :
    Except SubErr (List Char) :=
  .ok (_to_string (out_dir ++ "/" ++ (⟨pyLower (specSanitize name)⟩ : String) ++ "." ++
    (⟨pyLower ext⟩ : String))).data

/-- One left-to-right `re.sub` scan.  `tryM prevW s` reports a match at
the head of `s` as `(matched length, replacement or raised exception)`;
`prevW` carries whether the previous character of the scanned text is a
word character.  On a match the scan resumes after the matched text; on an
exception the whole substitution aborts.  `fuel` only bounds recursion
(each step consumes at least one character, so `fuel = length` at the top
level is always enough). -/
def subScanF (tryM : Bool → List Char → Option (Nat × Except SubErr (List Char))) :
    Nat → Bool → List Char → Except SubErr (List Char)
  | 0, _, _ => .ok []
  | fuel+1, prevW, s =>
    match s with
    | [] => .ok []
    | c :: rest =>
      match tryM prevW (c :: rest) with
      | some (n, rep) =>
        if n = 0 then
          match subScanF tryM fuel (isWordChar c) rest with
          | .error e => .error e
          | .ok t => .ok (c :: t)
        else
          match rep with
          | .error e => .error e
          | .ok repl =>
            let newPrev := ((((c :: rest).take n).getLast?).map isWordChar).getD prevW
            match subScanF tryM fuel newPrev ((c :: rest).drop n) with
            | .error e => .error e
            | .ok t => .ok (repl ++ t)
      | none =>
        match subScanF tryM fuel (isWordChar c) rest with
        | .error e => .error e
        | .ok t => .ok (c :: t)

/-- `pattern.sub(repl, s)` for one of the two placeholder patterns. -/
def subScan (tryM : Bool → List Char → Option (Nat × Except SubErr (List Char)))
    (s : List Char) : Except SubErr (List Char) :=
  subScanF tryM s.length false s

/-- The `in_pat` matcher joined with its replacement callback. -/
def tryIN (in_dir : String) (input_files : List String) :
    Bool → List Char → Option (Nat × Except SubErr (List Char)) :=
  fun prevW s => (matchINAt prevW s).map (fun p => (p.2, _replace_in in_dir input_files p.1))

/-- The `out_pat` matcher joined with a replacement callback (the pattern
has no word-boundary anchor, so the previous character is ignored). -/
def tryOUT (repl : List Char → List Char → Except SubErr (List Char)) :
    Bool → List Char → Option (Nat × Except SubErr (List Char)) :=
  fun _ s => (matchOUTAt s).map (fun p => (p.2.2, repl p.1 p.2.1))

/-- `process_source_code(source_code, input_files, task_id)` from
`lang_service.py`: the `IN` pass over the source, then the `OUT` pass over
the result of the `IN` pass. -/
def process_source_code (storage_in storage_out : String) (source_code : List Char)
    (input_files : List String) (task_id : String) : Except SubErr (List Char) :=
  let in_dir := storage_in ++ "/" ++ task_id
  let out_dir := storage_out ++ "/" ++ task_id
  match subScan (tryIN in_dir input_files) source_code with
  | .error e => .error e
  | .ok s1 => subScan (tryOUT (_replace_out out_dir)) s1

/-- The rewriter as described by the spec, with the spec-side `OUT`
substitution rule (two passes, per the amended claim C3).  Second
definition for the refinement comparison with `process_source_code`. -/
def specProcessSourceCode (storage_in storage_out : String) (source_code : List Char)
    (input_files : List String) (task_id : String) : Except SubErr (List Char) :=
  let in_dir := storage_in ++ "/" ++ task_id
  let out_dir := storage_out ++ "/" ++ task_id
  match subScan (tryIN in_dir input_files) source_code with
  | .error e => .error e
  | .ok s1 => subScan (tryOUT (specReplaceOut out_dir)) s1

/-! ## file_task_service.py -/

/-- Does any position of `l` still match one of the two placeholder
patterns?  The Boolean `prevW` tracks the word-character status of the
previous character, for the `\b` anchors of the `IN` pattern. -/
def containsResidualGo : Bool → List Char → Bool
  | _, [] => false
  | prevW, c :: rest =>
    (matchINAt prevW (c :: rest)).isSome || (matchOUTAt (c :: rest)).isSome ||
      containsResidualGo (isWordChar c) rest

/-- Whether a substring matching `\bIN_\d+\b` or
`OUT_\{?[A-Za-z0-9_-]+\}?\.[A-Za-z0-9]+` remains in `l`. -/
def containsResidual (l : List Char) : Bool := containsResidualGo false l

/-- Error outcomes of `create_file_task`. -/
inductive CFTError where
  /-- `ValueError`: inputs exceed `MAX_INPUT`. -/
  | inputsExceedMax
  /-- `ValueError`: outputs exceed `MAX_OUTPUT`. -/
  | outputsExceedMax
  /-- `ValueError`: inconsistent uploaded vs declared file counts. -/
  | inconsistentCounts
  /-- `ValueError`: uploaded filenames do not match `input_files`. -/
  | nameMismatch
  /-- An exception escaping `process_source_code`. -/
  | rewriteError (e : SubErr)
  /-- A residual placeholder after rewriting (`BadPlaceholder`). -/
  | badPlaceholder
  deriving DecidableEq, Repr

/-- Whether an error comes from the two request validators. -/
def isValidationError : CFTError → Bool
  | .inputsExceedMax | .outputsExceedMax | .inconsistentCounts | .nameMismatch => true
  | _ => false

/-- `MAX_INPUT` from `file_task_service.py`. -/
def MAX_INPUT : Nat := 5

/-- `MAX_OUTPUT` from `file_task_service.py`. -/
def MAX_OUTPUT : Nat := 5

/-- `_validate_files_limits(input_files, output_files, files)` from
`file_task_service.py`.  Uploaded files are modelled by their `name`
attribute, the only one the service reads. -/
def _validate_files_limits (input_files output_files files : List String) :
    Except CFTError Unit :=
  if MAX_INPUT < files.length || MAX_INPUT < input_files.length then
    .error .inputsExceedMax
  else if MAX_OUTPUT < output_files.length then .error .outputsExceedMax
  else .ok ()

/-- Python set equality of the two basename sets
`{Path(n).name for n in a} == {Path(f.name).name for f in b}`. -/
def basenameSetEq (a b : List String) : Bool :=
  let da := a.map pathName
  let db := b.map pathName
  da.all (db.contains ·) && db.all (da.contains ·)

/-- `_validate_declared_vs_uploaded(input_files, files)` from
`file_task_service.py`: the checks run only when **both** lists are
non-empty (Python truthiness of `input_files and files`). -/
def _validate_declared_vs_uploaded (input_files files : List String) :
    Except CFTError Unit :=
  if input_files ≠ [] ∧ files ≠ [] then
    if input_files.length ≠ files.length then .error .inconsistentCounts
    else if ¬ basenameSetEq input_files files then .error .nameMismatch
    else .ok ()
  else .ok ()

/-- Modelled from the spec: `validate_processed_source_code` is imported
by `file_task_service.py` from `lang_service.py` but its definition is not
in the repository snapshot; per §4.2, any residual token matching either
placeholder pattern after rewriting is a `BadPlaceholder` failure (the
rewriter must fail closed; this is a post-condition check after all
substitutions). -/
def validate_processed_source_code (l : List Char) : Except CFTError Unit :=
  if containsResidual l then .error .badPlaceholder else .ok ()

/-- The JSON-serializable payload handed to `run_code_with_files.delay`. -/
structure TaskPayload where
  programming_language : String
  source_code : List Char
  input_files_array : List String
  output_files_array : List String
  deriving DecidableEq, Repr

/-- `create_file_task(data)` from `file_task_service.py`: validate limits
and declared-vs-uploaded consistency, store the files (a side effect not
modelled), rewrite the placeholders, run the residual-token post-condition
check, and enqueue the payload.  The fresh `uuid4` and the storage roots
are passed in explicitly. -/
def create_file_task (storage_in storage_out task_uuid : String)
    (programming_language source_code : String)
    (input_files output_files files : List String) : Except CFTError TaskPayload :=
  match _validate_files_limits input_files output_files files with
  | .error e => .error e
  | .ok () =>
  match _validate_declared_vs_uploaded input_files files with
  | .error e => .error e
  | .ok () =>
  match process_source_code storage_in storage_out source_code.data input_files task_uuid with
  | .error e => .error (.rewriteError e)
  | .ok processed =>
  match validate_processed_source_code processed with
  | .error e => .error e
  | .ok () =>
    .ok { programming_language := programming_language, source_code := processed,
          input_files_array := input_files, output_files_array := output_files }

/-- Whether a request gets past both validators of `create_file_task`. -/
def passesValidation (input_files output_files files : List String) : Bool :=
  match _validate_files_limits input_files output_files files,
        _validate_declared_vs_uploaded input_files files with
  | .ok _, .ok _ => true
  | _, _ => false

/-- Whether `create_file_task` rejects the request with one of the four
validation errors. -/
def rejectsWithValidationError (storage_in storage_out task_uuid lang src : String)
    (input_files output_files files : List String) : Bool :=
  match create_file_task storage_in storage_out task_uuid lang src
      input_files output_files files with
  | .error e => isValidationError e
  | .ok _ => false

/-! ## tasks.py -/

/-- A result dict possibly missing some of the four keys, as fed to
`_normalize_result` (the unsupported-language branches build a dict with
only `error` and `returncode`). -/
structure SparseResult where
  stdout : Option String := none
  stderr : Option String := none
  returncode : Option Int := none
  error : Option String := none

/-- View of a full runner dict as input for `_normalize_result`. -/
def RunResult.toSparse (r : RunResult) : SparseResult :=
  { stdout := some r.stdout, stderr := some r.stderr,
    returncode := r.returncode, error := r.error }

/-- `_normalize_result(res)` from `tasks.py`:
`{"stdout": res.get("stdout", ""), "stderr": res.get("stderr", ""),
"returncode": res.get("returncode", None), "error": res.get("error", None)}`. -/
def _normalize_result (res : SparseResult) : RunResult :=
  { stdout := res.stdout.getD "", stderr := res.stderr.getD "",
    returncode := res.returncode, error := res.error }

/-- The dict built on the unsupported-language branch of both tasks:
`{"error": "Unsupported programming language", "returncode": 2}`. -/
def unsupportedLanguageDict : SparseResult :=
  { returncode := some 2, error := some "Unsupported programming language" }

/-- `run_code(programming_language, source_code)` from `tasks.py`, as a
function of the label and of the subprocess outcome of the docker run
(the per-job staging succeeds; its failure modes are modelled by
`run_code_trace` below).  The source text itself does not influence the
shape of the result. -/
def run_code (programming_language : String) (o : SubprocOutcome) : RunResult :=
  match normalize_language programming_language with
  | .error _ => _normalize_result unsupportedLanguageDict
  | .ok _lang => _normalize_result (run_docker_command o).toSparse

/-- One directory entry of the per-job output directory, as observed by
the loop body of `_collect_outputs`: the entry name, the result of the
`p.is_file()` observation, and the result of the subsequent `p.stat()`
call (`none` when `stat` raises, e.g. the file vanished between the two
calls or its metadata is unreadable). -/
structure DirEntry where
  name : String
  isFileObs : Bool
  statSize : Option Nat
  deriving DecidableEq, Repr

/-- `str(p)` for an entry `p` of `out_dir`. -/
def entryPath (dir : String) (e : DirEntry) : String := dir ++ "/" ++ e.name

/-- One `{name, path, size}` record of `output_files`. -/
structure OutputFileEntry where
  name : String
  path : String
  size : Option Nat
  deriving DecidableEq, Repr

/-- The record the loop body appends for a kept entry: `size` is the
`st.st_size` of the `try` branch, or `None` from the `except` branch. -/
def outputEntryOf (dir : String) (e : DirEntry) : OutputFileEntry :=
  { name := e.name, path := entryPath dir e, size := e.statSize }

/-- The order `sorted(out_dir.iterdir())` sorts by: pathlib compares pure
paths by their full path string. -/
def pathLe (dir : String) (a b : DirEntry) : Prop :=
  entryPath dir a ≤ entryPath dir b

instance (dir : String) : DecidableRel (pathLe dir) :=
  fun a b => inferInstanceAs (Decidable (entryPath dir a ≤ entryPath dir b))

/-- `_collect_outputs(out_dir)` from `tasks.py` over a snapshot of the
directory state: `[]` when `out_dir` does not exist; otherwise iterate the
entries in sorted order, skip those whose `is_file()` observation is
false, and record `{name, path, size}` for the rest. -/
def _collect_outputs (dir : String) (snapshot : Option (List DirEntry)) :
    List OutputFileEntry :=
  match snapshot with
  | none => []
  | some entries =>
    ((List.insertionSort (pathLe dir) entries).filter (·.isFileObs)).map (outputEntryOf dir)

/-- The dict returned by `run_code_with_files`: the normalized runner
fields plus `output_files`.  `output_files = none` models the absence of
the key (the unsupported-language branch returns before it is added). -/
structure TaskResult where
  stdout : String
  stderr : String
  returncode : Option Int
  error : Option String
  output_files : Option (List OutputFileEntry)
  deriving DecidableEq, Repr

/-- `run_code_with_files(payload, task_id)` from `tasks.py`, as a function
of the language label, the docker-run outcome, and the snapshot of
`<STORAGE_OUT>/<task_id>` observed by `_collect_outputs` at container
exit (`out_dir` is the path of that directory). -/
def run_code_with_files (out_dir : String) (programming_language : String)
    (o : SubprocOutcome) (snapshot : Option (List DirEntry)) : TaskResult :=
  match normalize_language programming_language with
  | .error _ =>
    let n := _normalize_result unsupportedLanguageDict
    { stdout := n.stdout, stderr := n.stderr, returncode := n.returncode,
      error := n.error, output_files := none }
  | .ok _lang =>
    let n := _normalize_result (run_docker_command o).toSparse
    { stdout := n.stdout, stderr := n.stderr, returncode := n.returncode,
      error := n.error, output_files := some (_collect_outputs out_dir snapshot) }

/-! ## Cleanup control flow of the two tasks

Both tasks wrap their body in `try: ... finally: try: job.cleanup()
except Exception: logger.warning(...)`.  The traces below make the exit
path explicit: `result = .error ()` models an exception propagating out
of the task body (e.g. a staging write failure), and `cleanupAttempted`
records whether `job.cleanup()` was invoked. -/

/-- Execution trace of one task invocation. -/
structure ExecTrace (α : Type) where
  result : Except Unit α
  cleanupAttempted : Bool

/-- `finally: try: job.cleanup() except Exception: logger.warning(...)`:
the cleanup runs on every path out of the body, and a failing cleanup
(`cleanupOk = false`) is caught and logged, so the outcome of the body — value
or exception — is returned unchanged in either case. -/
def finallyCleanup {α : Type} (body : Except Unit α) (cleanupOk : Bool) : ExecTrace α :=
  match cleanupOk with
  | true => { result := body, cleanupAttempted := true }
  | false => { result := body, cleanupAttempted := true }

/-- `run_code` with its exit paths: the unsupported-language branch
returns before the `JobDir` is created; afterwards the body either raises
(`writeOk = false`, modelling a staging failure) or returns the normalized
runner result, and the `finally` block runs in both cases. -/
def run_code_trace (programming_language : String) (writeOk : Bool)
    (o : SubprocOutcome) (cleanupOk : Bool) : ExecTrace RunResult :=
  match normalize_language programming_language with
  | .error _ =>
    { result := .ok (_normalize_result unsupportedLanguageDict), cleanupAttempted := false }
  | .ok _lang =>
    finallyCleanup
      (if writeOk then .ok (_normalize_result (run_docker_command o).toSparse)
       else .error ())
      cleanupOk

/-- `run_code_with_files` with its exit paths, as `run_code_trace`. -/
def run_code_with_files_trace (out_dir : String) (programming_language : String)
    (writeOk : Bool) (o : SubprocOutcome) (snapshot : Option (List DirEntry))
    (cleanupOk : Bool) : ExecTrace TaskResult :=
  match normalize_language programming_language with
  | .error _ =>
    { result := .ok (run_code_with_files out_dir programming_language o snapshot),
      cleanupAttempted := false }
  | .ok _lang =>
    finallyCleanup
      (if writeOk then .ok (run_code_with_files out_dir programming_language o snapshot)
       else .error ())
      cleanupOk

/-! ## Helper lemmas -/

instance {ε α : Type} [DecidableEq ε] [DecidableEq α] : DecidableEq (Except ε α) := fun x y =>
  match x, y with
  | .ok a, .ok b =>
    if h : a = b then .isTrue (by rw [h]) else .isFalse (fun hc => h (Except.ok.inj hc))
  | .error a, .error b =>
    if h : a = b then .isTrue (by rw [h]) else .isFalse (fun hc => h (Except.error.inj hc))
  | .ok _, .error _ => .isFalse Except.noConfusion
  | .error _, .ok _ => .isFalse Except.noConfusion

/-- The truncation marker has 18 characters. -/
theorem trunc_marker_length : TRUNC_MARKER.length = 18 := rfl

/-- `truncList` never returns more than the cap plus the marker. -/
theorem truncList_length_le (l : List Char) : (truncList l).length ≤ 64018 := by
  unfold truncList
  split
  · simp only [List.length_append, List.length_take, trunc_marker_length]
    omega
  · omega

/-- `_truncate` never returns more than the cap plus the marker. -/
theorem truncate_length_le (s : String) : (_truncate s).length ≤ 64018 :=
  truncList_length_le s.data

end CodeBox

namespace CodeBox

/-! ## Claim theorems -/

/-- Claim C1: for every job directory path and in-container command, the
argument vector returned by `get_docker_run_command_ro` contains all the
mandatory hardening options — `--rm`; `--cpus 1.0`; `--memory 512m` and
`--memory-swap 512m`; `--pids-limit 100`; `--cap-drop ALL`;
`--security-opt no-new-privileges`; `--network none`; `--read-only`; a
read-only rprivate bind mount of the job directory at `/sandbox`; a tmpfs
at `/tmp` capped at 64m; working directory `/sandbox`; user `1000:1000` —
and it ends with the image name followed by exactly the elements of
`lang_cmd`. -/
theorem c1_docker_hardening (job_dir : String) (lang_cmd : List String) :
    "--rm" ∈ get_docker_run_command_ro job_dir lang_cmd ∧
    "--read-only" ∈ get_docker_run_command_ro job_dir lang_cmd ∧
    (∃ p s, p ++ ["--cpus", "1.0"] ++ s = get_docker_run_command_ro job_dir lang_cmd) ∧
    (∃ p s, p ++ ["--memory", "512m"] ++ s = get_docker_run_command_ro job_dir lang_cmd) ∧
    (∃ p s, p ++ ["--memory-swap", "512m"] ++ s = get_docker_run_command_ro job_dir lang_cmd) ∧
    (∃ p s, p ++ ["--pids-limit", "100"] ++ s = get_docker_run_command_ro job_dir lang_cmd) ∧
    (∃ p s, p ++ ["--cap-drop", "ALL"] ++ s = get_docker_run_command_ro job_dir lang_cmd) ∧
    (∃ p s, p ++ ["--security-opt", "no-new-privileges"] ++ s =
      get_docker_run_command_ro job_dir lang_cmd) ∧
    (∃ p s, p ++ ["--network", "none"] ++ s = get_docker_run_command_ro job_dir lang_cmd) ∧
    (∃ p s, p ++ ["--mount",
        "type=bind,src=" ++ job_dir ++ ",dst=/sandbox,ro,bind-propagation=rprivate"] ++ s =
      get_docker_run_command_ro job_dir lang_cmd) ∧
    (∃ p s, p ++ ["--tmpfs", "/tmp:rw,noexec,nosuid,nodev,size=64m"] ++ s =
      get_docker_run_command_ro job_dir lang_cmd) ∧
    (∃ p s, p ++ ["--workdir", "/sandbox"] ++ s = get_docker_run_command_ro job_dir lang_cmd) ∧
    (∃ p s, p ++ ["--user", "1000:1000"] ++ s = get_docker_run_command_ro job_dir lang_cmd) ∧
    get_docker_run_command_ro job_dir lang_cmd =
      dockerHardenedOptions job_dir ++ [IMAGE_NAME] ++ lang_cmd := by
  refine ⟨?_, ?_, ?_, ?_, ?_, ?_, ?_, ?_, ?_, ?_, ?_, ?_, ?_, rfl⟩
  · simp [get_docker_run_command_ro, dockerHardenedOptions]
  · simp [get_docker_run_command_ro, dockerHardenedOptions]
  · exact ⟨(dockerHardenedOptions job_dir).take 3,
      (dockerHardenedOptions job_dir).drop 5 ++ [IMAGE_NAME] ++ lang_cmd, rfl⟩
  · exact ⟨(dockerHardenedOptions job_dir).take 5,
      (dockerHardenedOptions job_dir).drop 7 ++ [IMAGE_NAME] ++ lang_cmd, rfl⟩
  · exact ⟨(dockerHardenedOptions job_dir).take 7,
      (dockerHardenedOptions job_dir).drop 9 ++ [IMAGE_NAME] ++ lang_cmd, rfl⟩
  · exact ⟨(dockerHardenedOptions job_dir).take 9,
      (dockerHardenedOptions job_dir).drop 11 ++ [IMAGE_NAME] ++ lang_cmd, rfl⟩
  · exact ⟨(dockerHardenedOptions job_dir).take 11,
      (dockerHardenedOptions job_dir).drop 13 ++ [IMAGE_NAME] ++ lang_cmd, rfl⟩
  · exact ⟨(dockerHardenedOptions job_dir).take 13,
      (dockerHardenedOptions job_dir).drop 15 ++ [IMAGE_NAME] ++ lang_cmd, rfl⟩
  · exact ⟨(dockerHardenedOptions job_dir).take 15,
      (dockerHardenedOptions job_dir).drop 17 ++ [IMAGE_NAME] ++ lang_cmd, rfl⟩
  · exact ⟨(dockerHardenedOptions job_dir).take 18,
      (dockerHardenedOptions job_dir).drop 20 ++ [IMAGE_NAME] ++ lang_cmd, rfl⟩
  · exact ⟨(dockerHardenedOptions job_dir).take 20,
      (dockerHardenedOptions job_dir).drop 22 ++ [IMAGE_NAME] ++ lang_cmd, rfl⟩
  · exact ⟨(dockerHardenedOptions job_dir).take 22,
      (dockerHardenedOptions job_dir).drop 24 ++ [IMAGE_NAME] ++ lang_cmd, rfl⟩
  · exact ⟨(dockerHardenedOptions job_dir).take 24,
      (dockerHardenedOptions job_dir).drop 26 ++ [IMAGE_NAME] ++ lang_cmd, rfl⟩

/-- Claim C4, counterexample: a completed run whose captured stdout has
64,001 characters yields a `RunResult` whose retained stdout has 64,018
characters — the appended marker pushes the string past the claimed
64,000-character bound. -/
theorem c4_counterexample :
    ((run_docker_command (.completed ⟨List.replicate 64001 'a'⟩ "" 0)).stdout).length = 64018 ∧
    ¬ (64018 ≤ 64000) := by
  refine ⟨?_, by omega⟩
  have h1 : (run_docker_command (.completed ⟨List.replicate 64001 'a'⟩ "" 0)).stdout
      = ⟨truncList (List.replicate 64001 'a')⟩ := rfl
  have hc : 64000 < (List.replicate 64001 'a').length := by
    rw [List.length_replicate]
    omega
  have h2 : truncList (List.replicate 64001 'a')
      = (List.replicate 64001 'a').take 64000 ++ TRUNC_MARKER := by
    unfold truncList
    rw [if_pos hc]
  rw [h1]
  show (truncList (List.replicate 64001 'a')).length = 64018
  rw [h2, List.length_append, List.length_take, List.length_replicate, trunc_marker_length]
  omega

/-- Claim C4 as amended: the stdout and stderr of every `RunResult`
returned by `run_docker_command` have length at most 64,000 plus the
length of the fixed truncation marker (64,018 in total); no raw capture is
retained beyond the 64,000-character cap — a capture that exceeds the cap
is cut to its first 64,000 characters with the fixed marker appended,
and a capture within the cap is returned unchanged. -/
theorem c4_amended_truncation (o : SubprocOutcome) (s : String) :
    TRUNC_MARKER.length = 18 ∧
    (run_docker_command o).stdout.length ≤ 64018 ∧
    (run_docker_command o).stderr.length ≤ 64018 ∧
    _truncate s = (if s.length ≤ 64000 then s else ⟨s.data.take 64000 ++ TRUNC_MARKER⟩) := by
  refine ⟨rfl, ?_, ?_, ?_⟩
  · cases o <;>
      first
        | exact truncate_length_le _
        | exact (by decide : ("" : String).length ≤ 64018)
  · cases o <;>
      first
        | exact truncate_length_le _
        | exact (by decide : ("" : String).length ≤ 64018)
  · unfold _truncate truncList
    by_cases h : s.length ≤ 64000
    · rw [if_pos h, if_neg (by exact Nat.not_lt.mpr h)]
    · rw [if_neg h, if_pos (by exact Nat.lt_of_not_le h)]

/-- Claim C5, counterexample: when the timeout expires with output already
buffered (`e.stdout` non-empty), `run_docker_command` returns an
empty stdout, not the buffered text the claim promises. -/
theorem c5_counterexample :
    (run_docker_command (.timeoutExpired (some "buffered out") (some "buffered err"))).stdout
      = "" ∧
    (run_docker_command (.timeoutExpired (some "buffered out") (some "buffered err"))).stdout
      ≠ "buffered out" :=
  ⟨rfl, by decide⟩

/-- Claim C5 as amended: on timeout expiry `run_docker_command` returns a
`RunResult` whose error is the timeout kind (`"Execution time exceeded"`)
and whose returncode is absent, but whose stdout and stderr are always the
empty string — any output buffered before expiry is discarded. -/
theorem c5_amended_timeout (bufOut bufErr : Option String) :
    run_docker_command (.timeoutExpired bufOut bufErr) =
      { stdout := "", stderr := "", returncode := none, error := some TIMEOUT_ERROR } :=
  rfl

/-- Claim C6, counterexample: for an unsupported language label both tasks
return a result with `returncode = 2` **and** a present error, so
returncode and error are both present, contradicting the claimed
exactly-one (XOR) invariant. -/
theorem c6_counterexample :
    (run_code "ruby" (.completed "" "" 0)).returncode = some 2 ∧
    (run_code "ruby" (.completed "" "" 0)).error = some "Unsupported programming language" ∧
    (run_code_with_files "/out/t" "ruby" (.completed "" "" 0) none).returncode = some 2 ∧
    (run_code_with_files "/out/t" "ruby" (.completed "" "" 0) none).error
      = some "Unsupported programming language" :=
  ⟨rfl, rfl, rfl, rfl⟩

/-- Claim C6 as amended: every result returned by `run_code` and
`run_code_with_files` has at least one of a present returncode or a
present error — the two are never both absent.  (They can be both present:
the unsupported-language result carries the error together with the
synthetic returncode 2, and a subprocess-error result carries the error
together with the observed exit code.) -/
theorem c6_amended_result_presence (label : String) (o : SubprocOutcome)
    (out_dir : String) (snapshot : Option (List DirEntry)) :
    ((run_code label o).returncode.isSome || (run_code label o).error.isSome) = true ∧
    ((run_code_with_files out_dir label o snapshot).returncode.isSome ||
      (run_code_with_files out_dir label o snapshot).error.isSome) = true := by
  constructor <;>
    · cases h : normalize_language label <;>
        cases o <;>
          simp [run_code, run_code_with_files, h, _normalize_result,
            unsupportedLanguageDict, run_docker_command, RunResult.toSparse]

/-- Claim C8: for every execution of `run_code` and `run_code_with_files`,
the cleanup of the per-job directory is attempted on every exit path on
which the directory was created (normal result, error result, or an
exception raised by the body — the only path without cleanup is the
unsupported-language return, which precedes the creation of the directory),
and a failure of the cleanup itself is swallowed: the returned outcome is
identical whether the cleanup succeeds or fails. -/
theorem c8_cleanup_unconditional (label : String) (writeOk : Bool) (o : SubprocOutcome)
    (c₁ c₂ : Bool) (out_dir : String) (snapshot : Option (List DirEntry)) :
    ((run_code_trace label writeOk o c₁).result = (run_code_trace label writeOk o c₂).result ∧
      (run_code_trace label writeOk o c₁).cleanupAttempted =
        (normalize_language label).toBool) ∧
    ((run_code_with_files_trace out_dir label writeOk o snapshot c₁).result =
        (run_code_with_files_trace out_dir label writeOk o snapshot c₂).result ∧
      (run_code_with_files_trace out_dir label writeOk o snapshot c₁).cleanupAttempted =
        (normalize_language label).toBool) := by
  cases h : normalize_language label <;>
    cases c₁ <;>
      cases c₂ <;>
        simp [run_code_trace, run_code_with_files_trace, finallyCleanup, h, Except.toBool,
          Except.isOk]

/-- Claim C10: the language registry accepts C++ — `normalize_language`
maps `"c++"`, `"g++"` and `"cpp"` to `Language.cpp` and
`build_lang_command` produces a `g++` compile-and-run recipe for it — but
the request serializers restrict the language field to `LANG_CHOICES =
("python", "javascript", "c", "php")`, and no label in that choice set
normalizes to C++, so a C++ job can never be enqueued through the public
API. -/
theorem c10_cpp_unreachable :
    (∀ s, s ∈ LANG_CHOICES → normalize_language s ≠ .ok Language.cpp) ∧
    normalize_language "c++" = .ok Language.cpp ∧
    normalize_language "g++" = .ok Language.cpp ∧
    normalize_language "cpp" = .ok Language.cpp ∧
    (∀ source_path, build_lang_command Language.cpp source_path =
      ["sh", "-lc", "g++ " ++ source_path ++ " -O2 -std=c++17 -o /tmp/main && /tmp/main"]) := by
  refine ⟨?_, rfl, rfl, rfl, fun _ => rfl⟩
  intro s hs
  simp only [LANG_CHOICES, List.mem_cons, List.mem_singleton, List.not_mem_nil, or_false] at hs
  have hp : normalize_language "python" = .ok Language.python := rfl
  have hj : normalize_language "javascript" = .ok Language.javascript := rfl
  have hc : normalize_language "c" = .ok Language.c := rfl
  have hh : normalize_language "php" = .ok Language.php := rfl
  rcases hs with h | h | h | h <;> subst h <;> intro hcon
  · rw [hp] at hcon
    injection hcon with h2
    exact Language.noConfusion h2
  · rw [hj] at hcon
    injection hcon with h2
    exact Language.noConfusion h2
  · rw [hc] at hcon
    injection hcon with h2
    exact Language.noConfusion h2
  · rw [hh] at hcon
    injection hcon with h2
    exact Language.noConfusion h2

/-- Claim C10, witness: the serializer-accepted label `"c"` does not
normalize to C++. -/
theorem c10_witness : normalize_language "c" ≠ .ok Language.cpp :=
  c10_cpp_unreachable.1 "c" (by simp [LANG_CHOICES])

/-! ## Validation helpers for C9 -/

/-- `_validate_files_limits` succeeds exactly when all three counts are at
most 5. -/
theorem limits_ok_iff (i o f : List String) :
    _validate_files_limits i o f = .ok () ↔
      (f.length ≤ 5 ∧ i.length ≤ 5 ∧ o.length ≤ 5) := by
  unfold _validate_files_limits MAX_INPUT MAX_OUTPUT
  split_ifs with h1 h2 <;> (simp_all; try omega)

/-- `_validate_declared_vs_uploaded` succeeds exactly when either list is
empty or the counts agree and the basename sets agree. -/
theorem declared_ok_iff (i f : List String) :
    _validate_declared_vs_uploaded i f = .ok () ↔
      (i = [] ∨ f = [] ∨ (i.length = f.length ∧ basenameSetEq i f = true)) := by
  unfold _validate_declared_vs_uploaded
  split_ifs with h1 h2 h3 <;> (simp_all; try tauto)

/-- Any error of `_validate_files_limits` is a validation error. -/
theorem limits_error_is_validation {i o f : List String} {e : CFTError}
    (h : _validate_files_limits i o f = .error e) : isValidationError e = true := by
  unfold _validate_files_limits at h
  split_ifs at h
  all_goals
    injection h with h2
    subst h2
    rfl

/-- Any error of `_validate_declared_vs_uploaded` is a validation error. -/
theorem declared_error_is_validation {i f : List String} {e : CFTError}
    (h : _validate_declared_vs_uploaded i f = .error e) : isValidationError e = true := by
  unfold _validate_declared_vs_uploaded at h
  split_ifs at h
  all_goals
    injection h with h2
    subst h2
    rfl

/-- Claim C9, counterexample: a request that uploads one file while
declaring no input files — so `len(files) = 1 ≠ 0 = len(input_files)` —
is **not** rejected: it passes validation and is enqueued, because the
declared-vs-uploaded check only runs when both lists are non-empty. -/
theorem c9_counterexample :
    create_file_task "/in" "/out" "t" "python" "print(1)" [] [] ["a.txt"] =
      .ok { programming_language := "python", source_code := "print(1)".data,
            input_files_array := [], output_files_array := [] } ∧
    ["a.txt"].length ≠ ([] : List String).length :=
  ⟨rfl, by decide⟩

/-- Claim C9 as amended: `create_file_task` rejects a request with a
validation error exactly when the following fails to hold: all of
`files`, `input_files`, `output_files` have at most `MAX_INPUT =
MAX_OUTPUT = 5` entries, and — whenever both `files` and `input_files`
are non-empty — the two counts agree and the sets of declared and
uploaded basenames agree.  (When either list is empty the
declared-vs-uploaded consistency check is skipped, so such requests are
accepted regardless of the contents of the other list; boundary counts of
exactly 5 are accepted and 6 are rejected, as instances of the
characterization.) -/
theorem c9_amended_validation (sIn sOut tid lang src : String)
    (i o f : List String) :
    (passesValidation i o f = true ↔
      (f.length ≤ 5 ∧ i.length ≤ 5 ∧ o.length ≤ 5 ∧
        (i = [] ∨ f = [] ∨ (i.length = f.length ∧ basenameSetEq i f = true)))) ∧
    rejectsWithValidationError sIn sOut tid lang src i o f = !(passesValidation i o f) := by
  have hpv : passesValidation i o f = true ↔
      (_validate_files_limits i o f = .ok () ∧
        _validate_declared_vs_uploaded i f = .ok ()) := by
    unfold passesValidation
    rcases _validate_files_limits i o f with e | u <;>
      rcases _validate_declared_vs_uploaded i f with e2 | u2 <;>
        simp
  constructor
  · rw [hpv, limits_ok_iff, declared_ok_iff]
    tauto
  · unfold rejectsWithValidationError create_file_task
    rcases h1 : _validate_files_limits i o f with e | u
    · have hv := limits_error_is_validation h1
      have hp : passesValidation i o f = false := by
        unfold passesValidation
        rw [h1]
      rw [hp]
      simp [hv]
    · cases u
      rcases h2 : _validate_declared_vs_uploaded i f with e | u2
      · have hv := declared_error_is_validation h2
        have hp : passesValidation i o f = false := by
          unfold passesValidation
          rw [h1, h2]
        rw [hp]
        simp [hv]
      · cases u2
        have hp : passesValidation i o f = true := by
          unfold passesValidation
          rw [h1, h2]
        rw [hp]
        rcases h3 : process_source_code sIn sOut src.data i tid with e3 | s3
        · simp [isValidationError]
        · rcases h4 : validate_processed_source_code s3 with e4 | u4
          · have h5 : e4 = CFTError.badPlaceholder := by
              unfold validate_processed_source_code at h4
              split_ifs at h4
              injection h4 with h5
              exact h5.symm
            subst h5
            simp [h4, isValidationError]
          · cases u4
            simp [h4]

/-- Claim C2: if `create_file_task` enqueues a payload then the rewritten
source in that payload contains no residual placeholder token (nothing
matching `\bIN_\d+\b` or `OUT_\{?[A-Za-z0-9_-]+\}?\.[A-Za-z0-9]+`), and
conversely, whenever the rewriting succeeds but its result still contains
such a token, `create_file_task` fails with the `BadPlaceholder` error
instead of enqueueing — the post-condition check
`validate_processed_source_code` fails closed. -/
theorem c2_fail_closed (sIn sOut tid lang src : String) (i o f : List String) :
    (∀ p, create_file_task sIn sOut tid lang src i o f = .ok p →
      containsResidual p.source_code = false) ∧
    (∀ s, _validate_files_limits i o f = .ok () →
      _validate_declared_vs_uploaded i f = .ok () →
      process_source_code sIn sOut src.data i tid = .ok s →
      containsResidual s = true →
      create_file_task sIn sOut tid lang src i o f = .error .badPlaceholder) := by
  constructor
  · intro p h
    unfold create_file_task at h
    rcases h1 : _validate_files_limits i o f with e | u
    · rw [h1] at h
      simp at h
    · cases u
      rw [h1] at h
      rcases h2 : _validate_declared_vs_uploaded i f with e | u2
      · rw [h2] at h
        simp at h
      · cases u2
        rw [h2] at h
        rcases h3 : process_source_code sIn sOut src.data i tid with e3 | s3
        · rw [h3] at h
          simp at h
        · rw [h3] at h
          simp only [show (match (Except.ok s3 : Except SubErr (List Char)) with
              | Except.error e => Except.error (CFTError.rewriteError e)
              | Except.ok processed =>
                match validate_processed_source_code processed with
                | Except.error e => Except.error e
                | Except.ok _ =>
                  Except.ok { programming_language := lang, source_code := processed,
                              input_files_array := i, output_files_array := o }) =
              (match validate_processed_source_code s3 with
                | Except.error e => (Except.error e : Except CFTError TaskPayload)
                | Except.ok _ =>
                  Except.ok { programming_language := lang, source_code := s3,
                              input_files_array := i, output_files_array := o })
            from rfl] at h
          rcases h4 : validate_processed_source_code s3 with e4 | u4
          · rw [h4] at h
            simp at h
          · cases u4
            rw [h4] at h
            simp only [] at h
            injection h with h5
            rw [← h5]
            show containsResidual s3 = false
            unfold validate_processed_source_code at h4
            split_ifs at h4 with hres
            rcases Bool.eq_false_or_eq_true (containsResidual s3) with hb | hb
            · exact absurd hb hres
            · exact hb
  · intro s hv1 hv2 hp hres
    unfold create_file_task
    rw [hv1, hv2, hp]
    simp [validate_processed_source_code, hres]

/-- Claim C2, witness: a concrete successful creation — `"print(1)"` with
no files — enqueues a payload whose source is free of residual
placeholder tokens. -/
theorem c2_witness : containsResidual "print(1)".data = false :=
  (c2_fail_closed "/in" "/out" "t" "python" "print(1)" [] [] []).1
    { programming_language := "python", source_code := "print(1)".data,
      input_files_array := [], output_files_array := [] } rfl

/-! ## Rewriter helpers for C3 -/

/-- `dropWhile` is the identity when no element satisfies the predicate. -/
theorem dropWhile_eq_self_of {p : Char → Bool} {l : List Char}
    (h : ∀ c ∈ l, p c = false) : l.dropWhile p = l := by
  cases l with
  | nil => rfl
  | cons c t =>
    rw [List.dropWhile_cons, h c (List.mem_cons_self c t)]
    simp

/-- `map` is the identity when the function fixes every element. -/
theorem map_eq_self_of {f : Char → Char} {l : List Char}
    (h : ∀ c ∈ l, f c = c) : l.map f = l := by
  induction l with
  | nil => rfl
  | cons c t ih =>
    rw [List.map_cons, h c (List.mem_cons_self c t),
      ih (fun d hd => h d (List.mem_cons_of_mem c hd))]

/-- `str.strip()` is the identity on whitespace-free text. -/
theorem pyStrip_eq_self {l : List Char} (h : ∀ c ∈ l, isPySpace c = false) :
    pyStrip l = l := by
  unfold pyStrip
  rw [dropWhile_eq_self_of h,
    dropWhile_eq_self_of (fun c hc => h c (List.mem_reverse.mp hc)),
    List.reverse_reverse]

/-- A name-class character is not Python whitespace. -/
theorem nameChar_not_space {c : Char} (h : isNameChar c = true) : isPySpace c = false := by
  rcases Bool.eq_false_or_eq_true (isPySpace c) with hb | hb
  · exfalso
    unfold isPySpace at hb
    simp only [Bool.or_eq_true, decide_eq_true_eq] at hb
    rcases hb with ((((h1 | h1) | h1) | h1) | h1) | h1 <;> subst h1 <;>
      exact absurd h (by decide)
  · exact hb

/-- The space-to-underscore step fixes name-class characters. -/
theorem nameChar_if_space {c : Char} (h : isNameChar c = true) :
    (if c = ' ' then '_' else c) = c := by
  have hne : c ≠ ' ' := by
    intro he
    subst he
    exact absurd h (by decide)
  rw [if_neg hne]

/-- Name-class characters survive the `[-\w.]` filter. -/
theorem nameChar_valid {c : Char} (h : isNameChar c = true) :
    isValidFilenameChar c = true := by
  unfold isNameChar at h
  unfold isValidFilenameChar isWordChar
  simp only [Bool.or_eq_true] at h ⊢
  tauto

/-- Name-class characters survive the spec-side `[A-Za-z0-9._-]` filter. -/
theorem nameChar_spec_keep {c : Char} (h : isNameChar c = true) :
    (c.isAlphanum || c = '.' || c = '_' || c = '-') = true := by
  unfold isNameChar at h
  simp only [Bool.or_eq_true] at h ⊢
  tauto

/-- `get_valid_filename` is the identity (modulo success) on a non-empty
string of name-class characters: nothing is stripped, replaced, filtered,
or rejected. -/
theorem get_valid_filename_nameChars {l : List Char} (hne : l ≠ [])
    (h : ∀ c ∈ l, isNameChar c = true) : get_valid_filename l = .ok l := by
  have hdotfree : ∀ c ∈ l, c ≠ '.' := by
    intro c hc he
    subst he
    exact absurd (h _ hc) (by decide)
  simp only [get_valid_filename]
  rw [pyStrip_eq_self (fun c hc => nameChar_not_space (h c hc)),
    map_eq_self_of (fun c hc => nameChar_if_space (h c hc)),
    List.filter_eq_self.mpr (fun c hc => nameChar_valid (h c hc))]
  rw [if_neg]
  rintro (h1 | h1 | h1)
  · exact hne h1
  · exact hdotfree '.' (by rw [h1]; exact List.mem_cons_self _ _) rfl
  · exact hdotfree '.' (by rw [h1]; exact List.mem_cons_self _ _) rfl

/-- The spec-side sanitizer is the identity on name-class characters. -/
theorem specSanitize_nameChars {l : List Char} (h : ∀ c ∈ l, isNameChar c = true) :
    specSanitize l = l :=
  List.filter_eq_self.mpr (fun c hc => nameChar_spec_keep (h c hc))

/-- The name group produced by `matchOUTAfter` is non-empty and consists
of name-class characters. -/
theorem matchOUTAfter_name {rest name ext : List Char} {n : Nat}
    (h : matchOUTAfter rest = some (name, ext, n)) :
    name ≠ [] ∧ ∀ c ∈ name, isNameChar c = true := by
  unfold matchOUTAfter at h
  split at h
  · exact Option.noConfusion h
  · rename_i hni
    split at h
    · split at h
      · exact Option.noConfusion h
      · injection h with h2
        injection h2 with h3 h4
        subst h3
        constructor
        · intro hn
          exact hni (by rw [hn]; rfl)
        · intro c hc
          exact List.mem_takeWhile_imp hc
    · exact Option.noConfusion h

/-- The name group produced by `matchOUTAt` is non-empty and consists of
name-class characters. -/
theorem matchOUTAt_name {s name ext : List Char} {n : Nat}
    (h : matchOUTAt s = some (name, ext, n)) :
    name ≠ [] ∧ ∀ c ∈ name, isNameChar c = true := by
  unfold matchOUTAt at h
  split at h
  · exact matchOUTAfter_name h
  · exact Option.noConfusion h

/-- On matched `OUT` groups the code replacement and the spec replacement
coincide: the Django sanitizer is the identity there, as is the spec
sanitizer. -/
theorem tryOUT_code_eq_spec (out_dir : String) :
    tryOUT (_replace_out out_dir) = tryOUT (specReplaceOut out_dir) := by
  funext prevW s
  unfold tryOUT
  cases h : matchOUTAt s with
  | none => rfl
  | some p =>
    obtain ⟨name, ext, n⟩ := p
    obtain ⟨hne, hchars⟩ := matchOUTAt_name h
    have hrepl : _replace_out out_dir name ext = specReplaceOut out_dir name ext := by
      unfold _replace_out specReplaceOut
      rw [get_valid_filename_nameChars hne hchars, specSanitize_nameChars hchars]
    simp [hrepl]

/-- Claim C3, counterexample: with one declared input named `OUT_a.txt`,
the source `IN_1` is first rewritten to the quoted input path
`"/in/t/OUT_a.txt"` — but the second (`OUT`) pass then rescans that
replacement and rewrites the `OUT_a.txt` inside it, so the final text is
`"/in/t/"/out/t/a.txt""` rather than the claimed quoted input path. -/
theorem c3_counterexample :
    process_source_code "/in" "/out" "IN_1".data ["OUT_a.txt"] "t" =
      .ok ("\"/in/t/\"/out/t/a.txt\"\"".data) ∧
    ("\"/in/t/\"/out/t/a.txt\"\"".data : List Char) ≠ "\"/in/t/OUT_a.txt\"".data :=
  ⟨by decide, by decide⟩

/-- Claim C3 as amended: `process_source_code` performs the two
substitutions as two sequential passes — every `IN_i` occurrence (with
`1 ≤ i ≤ |declared_inputs|`) is replaced by the double-quoted absolute
path `<STORAGE_IN>/<JobId>/<basename(declared_inputs[i-1])>` (an
out-of-range index aborts with an error), and then, over the text
produced by that first pass, every `OUT_NAME.EXT` occurrence (braces
optional) is replaced by the double-quoted absolute path
`<STORAGE_OUT>/<JobId>/<sanitize(NAME).lower()>.<EXT.lower()>` where
sanitization strips characters outside `[A-Za-z0-9._-]`; all other text
is unchanged.  Because the second pass rescans the output of the first,
`OUT`-shaped text introduced by an input filename is rewritten too. -/
theorem c3_amended_rewriter (storage_in storage_out : String) (source_code : List Char)
    (input_files : List String) (task_id : String) :
    process_source_code storage_in storage_out source_code input_files task_id =
      specProcessSourceCode storage_in storage_out source_code input_files task_id := by
  unfold process_source_code specProcessSourceCode
  simp only [tryOUT_code_eq_spec]

/-! ## Order helpers for C7

`sorted(out_dir.iterdir())` compares the full path strings; since every
entry shares the prefix `out_dir ++ "/"`, this coincides with comparing
the entry names.  The lemmas below prove that prefix cancellation for the
lexicographic string order. -/

/-- Prefix cancellation for the core lexicographic list order. -/
theorem list_lt_append (p a b : List Char) : p ++ a < p ++ b ↔ a < b := by
  induction p with
  | nil => exact Iff.rfl
  | cons c t ih =>
    constructor
    · intro h
      cases h with
      | cons h3 => exact ih.mp h3
      | rel hlt => exact absurd hlt (lt_irrefl c)
    · intro h
      exact List.Lex.cons (ih.mpr h)

/-- Prefix cancellation for `<` on `String`. -/
theorem string_append_lt (p a b : String) : p ++ a < p ++ b ↔ a < b := by
  rw [String.lt_iff_toList_lt, String.lt_iff_toList_lt]
  show p.data ++ a.data < p.data ++ b.data ↔ a.data < b.data
  exact list_lt_append p.data a.data b.data

/-- Prefix cancellation for `≤` on `String`. -/
theorem string_append_le (p a b : String) : p ++ a ≤ p ++ b ↔ a ≤ b := by
  constructor
  · intro h
    by_contra hn
    rw [not_le] at hn
    exact absurd ((string_append_lt p b a).mpr hn) (not_lt.mpr h)
  · intro h
    by_contra hn
    rw [not_le] at hn
    exact absurd ((string_append_lt p b a).mp hn) (not_lt.mpr h)

/-- Path order between two entries of the same directory is name order. -/
theorem pathLe_iff_name_le (dir : String) (a b : DirEntry) :
    pathLe dir a b ↔ a.name ≤ b.name :=
  string_append_le (dir ++ "/") a.name b.name

/-- Claim C7: over a snapshot of the output directory whose entries have
distinct names, `_collect_outputs` returns exactly one `{name, path,
size}` record for each entry observed as a regular file —
non-recursively, with `path` the absolute path under the directory and
`size` the observed stat size or null when the stat call failed (a
vanished or unreadable file is still listed, with size null, as long as
it was observed as a regular directory entry) — and the returned list is
sorted ascending by name with no duplicate names. -/
theorem c7_collect_outputs (dir : String) (entries : List DirEntry)
    (hnodup : (entries.map DirEntry.name).Nodup) :
    ((_collect_outputs dir (some entries)).map OutputFileEntry.name).Sorted (· ≤ ·) ∧
    (∀ o : OutputFileEntry, o ∈ _collect_outputs dir (some entries) ↔
      ∃ e, e ∈ entries ∧ e.isFileObs = true ∧ o = outputEntryOf dir e) ∧
    ((_collect_outputs dir (some entries)).map OutputFileEntry.name).Nodup := by
  haveI : IsTotal DirEntry (pathLe dir) :=
    ⟨fun a b => le_total (entryPath dir a) (entryPath dir b)⟩
  haveI : IsTrans DirEntry (pathLe dir) :=
    ⟨fun _ _ _ h1 h2 => le_trans h1 h2⟩
  have hcomp : (OutputFileEntry.name ∘ outputEntryOf dir) = DirEntry.name := rfl
  refine ⟨?_, ?_, ?_⟩
  · have hs : List.Sorted (pathLe dir) (List.insertionSort (pathLe dir) entries) :=
      List.sorted_insertionSort (pathLe dir) entries
    have hs2 : List.Sorted (pathLe dir)
        ((List.insertionSort (pathLe dir) entries).filter (·.isFileObs)) :=
      List.Pairwise.filter _ hs
    unfold _collect_outputs
    rw [List.map_map, hcomp]
    exact List.pairwise_map.mpr
      (hs2.imp (fun {a b} h => (pathLe_iff_name_le dir a b).mp h))
  · intro o
    unfold _collect_outputs
    simp only [List.mem_map, List.mem_filter, List.mem_insertionSort]
    constructor
    · rintro ⟨e, ⟨he, hf⟩, rfl⟩
      exact ⟨e, he, hf, rfl⟩
    · rintro ⟨e, he, hf, rfl⟩
      exact ⟨e, ⟨he, hf⟩, rfl⟩
  · unfold _collect_outputs
    rw [List.map_map, hcomp]
    have hsub : List.Sublist
        (((List.insertionSort (pathLe dir) entries).filter (·.isFileObs)).map DirEntry.name)
        ((List.insertionSort (pathLe dir) entries).map DirEntry.name) :=
      (List.filter_sublist _).map _
    have hperm : List.Perm ((List.insertionSort (pathLe dir) entries).map DirEntry.name)
        (entries.map DirEntry.name) :=
      (List.perm_insertionSort (pathLe dir) entries).map _
    exact List.Nodup.sublist hsub (hperm.nodup_iff.mpr hnodup)

/-- Claim C7, witness: a concrete snapshot with two regular files (one
with a failing stat) and one non-file entry yields a name-sorted,
duplicate-free listing. -/
theorem c7_witness :
    ((_collect_outputs "/out/t"
        (some [⟨"b", true, some 3⟩, ⟨"a", true, none⟩, ⟨"c", false, some 1⟩])).map
      OutputFileEntry.name).Sorted (· ≤ ·) ∧
    ((_collect_outputs "/out/t"
        (some [⟨"b", true, some 3⟩, ⟨"a", true, none⟩, ⟨"c", false, some 1⟩])).map
      OutputFileEntry.name).Nodup :=
  ⟨(c7_collect_outputs "/out/t"
      [⟨"b", true, some 3⟩, ⟨"a", true, none⟩, ⟨"c", false, some 1⟩] (by decide)).1,
   (c7_collect_outputs "/out/t"
      [⟨"b", true, some 3⟩, ⟨"a", true, none⟩, ⟨"c", false, some 1⟩] (by decide)).2.2⟩

end CodeBox
